import Mathlib

/-!
Verification of the SPID/CIE OIDC relying-party core against its
natural-language specification.

The development shallowly embeds two source files:

* `spid_cie_oidc_authority/jwtse.py` — the JOSE (JWS/JWE) primitives.
  The `cryptojwt` library calls (`key_from_jwk_dict`, `JWS.sign_compact`,
  `JWS.verify_compact`, `factory`, `JWE.decrypt`) are external collaborators
  and are modelled symbolically: a signature is a token `Sig.made m h p`
  recording the signing key material `m` and the signed content, and
  verification succeeds exactly when the recomputation with the supplied
  key material matches.  The byte-level `unpad_jwt_head` (base64 + JSON)
  is embedded separately at byte level further below.

* `spid_cie_oidc/relying_party/views.py` — the relying-party views:
  trust-chain resolution (`SpidCieOidcRp.get_oidc_op`), the begin view
  fragments that matter to the claims (scope building, the persisted
  `OidcAuthentication` row), the callback token-verification step
  (`SpidCieOidcRpCallbackView.get`, lines 348-392) and RP-initiated
  logout (`oidc_rpinitiated_logout`).

Uncaught Python exceptions are a distinct observable outcome
(`CallbackOutcome.exception`): they abort the request without rendering
the structured rejection page.
-/

namespace SpidCie

/-- A JWK dictionary, reduced to the two components the embedded code
reads: its `kid` and (symbolically) its key material.  The public part of
a key shares the material number; a signature made with material `m`
verifies exactly under keys of material `m`. -/
structure Jwk where
  kid : String
  material : Nat
deriving DecidableEq, Repr

/-- The public part of a JWK (same `kid`, same material identity;
verification is the only operation performed with it). -/
def publicPart (k : Jwk) : Jwk :=
  { kid := k.kid, material := k.material }

/-- JOSE headers / JSON payloads as ordered key-value lists
(Python `dict` with string values). -/
abbrev HeaderMap : Type := List (String × String)

/-- `d.get(key)` on a Python dict modelled as an ordered pair list. -/
def hget (k : String) : HeaderMap → Option String
  | [] => none
  | (k', v) :: t => if k' = k then some v else hget k t

/-- `d[key] = value` on a Python dict: replaces in place the first
occurrence of the key, otherwise appends (insertion order preserved,
exactly Python dict update semantics). -/
def hset (k v : String) : HeaderMap → HeaderMap
  | [] => [(k, v)]
  | (k', v') :: t => if k' = k then (k, v) :: t else (k', v') :: hset k v t

/-- Token payloads (the JSON object carried by a JWS). -/
abbrev Payload : Type := List (String × String)

/-- Symbolic JWS signature: `made m h p` is the value produced by signing
header `h` and payload `p` with key material `m`; `forged j` is any other
byte string an attacker may place in the third compact segment. -/
inductive Sig where
  | made (material : Nat) (head : HeaderMap) (payload : Payload)
  | forged (junk : Nat)
deriving DecidableEq, Repr

/-- A compact JWS token, decoded: protected header, payload, signature. -/
structure CompactJws where
  head : HeaderMap
  payload : Payload
  sig : Sig
deriving DecidableEq, Repr

/-- Errors raised by the embedded `jwtse.py` functions (Python exception
classes): `keyMismatch` is the bare `Exception` raised on the kid check,
`unsupportedAlg` is `UnsupportedAlgorithm`, `badSignature` is the
`cryptojwt` verification/decryption failure, `keyError` is a Python
`KeyError` on a missing dict entry, `malformed` is the decode failure of
`unpad_jwt_head` on input that is not a JOSE compact token. -/
inductive JwtError where
  | keyMismatch
  | unsupportedAlg
  | badSignature
  | keyError
  | malformed
deriving DecidableEq, Repr

/-- `create_jws` (jwtse.py lines 113-126).  The function mutates the
caller-supplied `headers` dict (`headers['kid'] = jwk_dict['kid']`;
`headers['alg'] = alg`) and locally base64-encodes `headers` and
`payload`, but the value it returns is `JWS(payload, alg).sign_compact([key])`:
the cryptojwt library builds the protected header itself from `alg` and
the key's `kid`, so neither the mutated dict nor the local encodings
reach the output.  The result is the pair (returned compact token,
state of the `headers` dict after the call). -/
def create_jws (payload : Payload) (jwk_dict : Jwk) (alg : String)
    (headers : HeaderMap) : CompactJws × HeaderMap :=
  let headers1 := hset "kid" jwk_dict.kid headers
  let headers2 := hset "alg" alg headers1
  let libHead : HeaderMap := [("alg", alg), ("kid", jwk_dict.kid)]
  ({ head := libHead, payload := payload,
     sig := Sig.made jwk_dict.material libHead payload }, headers2)

/-- `verify_jws` (jwtse.py lines 129-144).  Order of the checks is the
order of the source: (1) `_head.get('kid') != pub_jwk['kid']` raises a
bare `Exception` (key mismatch); (2) `_head['alg']` raises `KeyError`
when absent; (3) `_alg in DISABLED_JWT_ALGS or not _alg` raises
`UnsupportedAlgorithm`; (4) `JWS(alg).verify_compact(jws, [key])`
returns the payload or raises on an invalid signature. -/
def verify_jws (disabled : List String) (jws : CompactJws) (pub_jwk : Jwk) :
    Except JwtError Payload :=
  if hget "kid" jws.head ≠ some pub_jwk.kid then
    Except.error JwtError.keyMismatch
  else
    match hget "alg" jws.head with
    | none => Except.error JwtError.keyError
    | some alg =>
      if alg ∈ disabled ∨ alg = "" then
        Except.error JwtError.unsupportedAlg
      else if jws.sig = Sig.made pub_jwk.material jws.head jws.payload then
        Except.ok jws.payload
      else
        Except.error JwtError.badSignature

/-- A compact JWE, decoded: protected header and (symbolically) its
ciphertext, which determines the key material it was encrypted to and
the plaintext; `none` stands for undecryptable bytes. -/
structure CompactJwe where
  head : HeaderMap
  ciphertext : Option (Nat × Payload)
deriving DecidableEq, Repr

/-- `decrypt_jwe` (jwtse.py lines 85-110).  Header fields `alg`/`enc`
fall back to the configured defaults (`JWE_ALG`, `JWE_ENC` — their
values live in settings outside the shown sources, so they are
parameters here); the disabled-algorithm check runs before
`factory`/`decrypt` are called. -/
def decrypt_jwe (disabled : List String) (defaultAlg defaultEnc : String)
    (jwe : CompactJwe) (jwk_dict : Jwk) : Except JwtError Payload :=
  let alg := (hget "alg" jwe.head).getD defaultAlg
  let _enc := (hget "enc" jwe.head).getD defaultEnc
  if alg ∈ disabled then
    Except.error JwtError.unsupportedAlg
  else
    match jwe.ciphertext with
    | none => Except.error JwtError.malformed
    | some (m, p) =>
      if m = jwk_dict.material then Except.ok p
      else Except.error JwtError.badSignature

/-! ## Relying-party views (`spid_cie_oidc/relying_party/views.py`) -/

/-- A stored `TrustChain` row.  The fields the resolver reads:
subject, trust-anchor subject, and the `is_active` / `is_expired`
properties.  Modelled from the spec: the `TrustChain` model itself lives
in `spid_cie_oidc/entity/models.py`, outside the shown sources; per the
spec (§3) it carries an active flag and an expiry timestamp, surfaced
here as the two booleans the view branches on. -/
structure TrustChainRec where
  sub : String
  trust_anchor_sub : String
  is_active : Bool
  is_expired : Bool
deriving DecidableEq, Repr

/-- `SpidCieOidcRp.get_oidc_op` (views.py lines 65-102).
Inputs: the two query parameters (`provider`, `trust_anchor`), the
settings (`OIDCFED_TRUST_ANCHOR` default and `OIDCFED_TRUST_ANCHORS`
allowed set), the stored trust chains in database order (the Django
`filter(...).first()` picks the first match), and the refresh
collaborator `get_or_create_trust_chain` invoked only on the expired
branch.  `Except.error` is a raised `InvalidTrustchain`;
`Except.ok none` is the "chain not found" return of `None`. -/
def get_oidc_op (allowedAnchors : List String) (defaultAnchor : String)
    (provider : Option String) (anchorParam : Option String)
    (store : List TrustChainRec)
    (refresh : String → String → Option TrustChainRec) :
    Except String (Option TrustChainRec) :=
  if provider.getD "" = "" then
    Except.error "Missing provider url"
  else
    let trust_anchor := anchorParam.getD defaultAnchor
    if trust_anchor ∈ allowedAnchors then
      match store.find? (fun tc =>
          tc.sub == provider.getD "" && tc.trust_anchor_sub == trust_anchor) with
      | none => Except.ok none
      | some tc =>
        if tc.is_active = false then
          Except.error "found but DISABLED"
        else if tc.is_expired then
          Except.ok (refresh tc.sub trust_anchor)
        else
          Except.ok (some tc)
    else
      Except.error "Unallowed Trust Anchor"

/-- The `scope` entry of `authz_data` in `SpidCieOidcRpBeginView.get`
(views.py line 183): the Python expression is
`" ".join([i for i in request.GET.get("scope", ["openid"])])`.
When the query string carries a `scope` parameter, Django's
`QueryDict.get` returns it as a `str`, so the comprehension iterates
over its characters; only when the parameter is absent does the default
list `["openid"]` make the join produce `"openid"`. -/
def beginScope (scopeParam : Option String) : String :=
  match scopeParam with
  | none => String.intercalate " " ["openid"]
  | some s => String.intercalate " " (s.data.map (fun c => String.mk [c]))

/-- The `OidcAuthentication` row persisted by the begin view
(views.py lines 209-222): the pending-authentication snapshot, holding
in particular the provider JWKS downloaded or embedded at authorization
time (`provider_jwks=json.dumps(jwks_dict)`). -/
structure OidcAuthentication where
  client_id : String
  state : String
  endpoint : String
  provider : String
  provider_id : String
  data : String
  provider_jwks : List Jwk
  provider_configuration : String
deriving DecidableEq, Repr

/-- Construction of `authz_entry` in `SpidCieOidcRpBeginView.get`
(views.py lines 209-219): `provider` and `provider_id` are both the
trust chain subject, `provider_jwks` is the serialized JWKS snapshot. -/
def begin_authz_entry (client_id state endpoint tc_sub data : String)
    (jwks_dict : List Jwk) (provider_metadata : String) : OidcAuthentication :=
  { client_id := client_id, state := state, endpoint := endpoint,
    provider := tc_sub, provider_id := tc_sub, data := data,
    provider_jwks := jwks_dict, provider_configuration := provider_metadata }

/-- A stored `FederationEntityConfiguration` row, reduced to what the
callback reads from it: its `entity_type` and, for an
`openid_provider` entry, `metadata["openid_provider"]["jwks"]["keys"]`. -/
structure FederationEntityConfiguration where
  entity_type : String
  op_jwks : List Jwk
deriving DecidableEq, Repr

/-- A token received from the token endpoint: either a compact JWS or an
opaque non-JWT string (some providers issue opaque access tokens). -/
inductive RpToken where
  | jws (t : CompactJws)
  | nonJwt (s : String)
deriving DecidableEq, Repr

/-- `verify_jws` applied to a raw token string: on an opaque non-JWT
input `unpad_jwt_head` raises before anything else. -/
def verify_jws_token (disabled : List String) (t : RpToken) (pub_jwk : Jwk) :
    Except JwtError Payload :=
  match t with
  | RpToken.nonJwt _ => Except.error JwtError.malformed
  | RpToken.jws j => verify_jws disabled j pub_jwk

/-- `SpidCieOidcRpCallbackView.get_jwk_from_jwt` (views.py lines 273-279):
decodes the token header (raising on an opaque token), reads
`head["kid"]` (raising `KeyError` when absent), and returns the first
provider JWK with that kid, or the empty dict (here `none`). -/
def get_jwk_from_jwt (t : RpToken) (provider_jwks : List Jwk) :
    Except JwtError (Option Jwk) :=
  match t with
  | RpToken.nonJwt _ => Except.error JwtError.malformed
  | RpToken.jws j =>
    match hget "kid" j.head with
    | none => Except.error JwtError.keyError
    | some kid => Except.ok (provider_jwks.find? (fun k => k.kid == kid))

/-- Observable outcome of the callback token-verification step:
a rendered rejection page (error, description, HTTP status), an
uncaught Python exception aborting the request, or fall-through to the
rest of the flow (token persistence, userinfo, login). -/
inductive CallbackOutcome where
  | rejected (error : String) (error_description : String) (status : Nat)
  | exception (e : JwtError)
  | proceed
deriving DecidableEq, Repr

/-- The token-verification fragment of `SpidCieOidcRpCallbackView.get`
(views.py lines 355-378), with `jwks` the key list the view resolved
just above it.  Faithful to the source:

* `op_ac_jwk` / `op_id_jwk` lookups can raise (opaque token, missing
  `kid`) — raised exceptions are not caught by the view;
* `if not op_ac_jwk or not op_id_jwk:` renders the 403 rejection;
* `if not verify_jws(access_token, op_ac_jwk): pass` — only a raised
  exception is observable on this line, a falsy return falls through;
* the second check also verifies `access_token` (not `id_token`),
  against `op_id_jwk`, exactly as the source does on line 372; a falsy
  (empty) returned payload renders the 403 rejection, a raise aborts. -/
def tokens_verified_step (disabled : List String) (jwks : List Jwk)
    (access_token id_token : RpToken) : CallbackOutcome :=
  match get_jwk_from_jwt access_token jwks with
  | Except.error e => CallbackOutcome.exception e
  | Except.ok op_ac_jwk =>
    match get_jwk_from_jwt id_token jwks with
    | Except.error e => CallbackOutcome.exception e
    | Except.ok op_id_jwk =>
      match op_ac_jwk, op_id_jwk with
      | some ac_jwk, some id_jwk =>
        match verify_jws_token disabled access_token ac_jwk with
        | Except.error e => CallbackOutcome.exception e
        | Except.ok _ =>
          match verify_jws_token disabled access_token id_jwk with
          | Except.error e => CallbackOutcome.exception e
          | Except.ok msg =>
            if msg = [] then
              CallbackOutcome.rejected "Not valid authentication token"
                "Authentication token validation error." 403
            else
              CallbackOutcome.proceed
      | _, _ =>
        CallbackOutcome.rejected "Not valid authentication token"
          "Authentication token seems not to be valid." 403

/-- Resolution of the key set used by the callback (views.py lines
348-353): the first stored `FederationEntityConfiguration` with
`entity_type="openid_provider"`, current at callback time, supplies
`metadata["openid_provider"]["jwks"]["keys"]`. -/
def callback_op_jwks (confs : List FederationEntityConfiguration) :
    Option (List Jwk) :=
  (confs.find? (fun c => c.entity_type == "openid_provider")).map
    (fun c => c.op_jwks)

/-- The callback token-verification step in context (views.py lines
348-378): `authz` is the matched `OidcAuthentication` row, `confs` the
`FederationEntityConfiguration` table at callback time.  When no
`openid_provider` configuration exists, `entity_conf.metadata` raises an
`AttributeError` on `None` (line 352). -/
def callback_tokens_verified (disabled : List String)
    (authz : OidcAuthentication) (confs : List FederationEntityConfiguration)
    (access_token id_token : RpToken) : CallbackOutcome :=
  match callback_op_jwks confs with
  | none => CallbackOutcome.exception JwtError.keyError
  | some jwks => tokens_verified_step disabled jwks access_token id_token

/-- An `OidcAuthenticationToken` row as read by RP-initiated logout:
its id token, its `logged_out` mark, and the `end_session_endpoint`
of the provider configuration reachable through its `authz_request`. -/
structure OidcAuthenticationToken where
  id_token : String
  logged_out : Option String
  end_session_endpoint : Option String
deriving DecidableEq, Repr

/-- The queryset filter of `oidc_rpinitiated_logout` (views.py lines
451-453): `Q(logged_out__iexact="") | Q(logged_out__isnull=True)`. -/
def notLoggedOut (t : OidcAuthenticationToken) : Bool :=
  match t.logged_out with
  | none => true
  | some s => s == ""

/-- Result of `oidc_rpinitiated_logout`: whether `logout(request)` ran,
which row (by id token) got its `logged_out` timestamp set and to what,
and the redirect target returned. -/
structure LogoutResult where
  local_session_terminated : Bool
  marked_logged_out : Option (String × String)
  redirect : String
deriving DecidableEq, Repr

/-- `oidc_rpinitiated_logout` (views.py lines 446-469).  `user_tokens`
is the user's `OidcAuthenticationToken` rows in creation (pk) order;
`.last()` of the filtered queryset is the most recent one not yet
logged out.  With no such token, `auth_tokens.last()` is `None` and the
attribute access raises (`none` here).  `logout(request)` runs before
the branch; on the `end_session_endpoint` branch the token is marked
with the current time and the redirect carries `id_token_hint`. -/
def oidc_rpinitiated_logout (user_tokens : List OidcAuthenticationToken)
    (logout_redirect_url : String) (now : String) : Option LogoutResult :=
  let auth_tokens := user_tokens.filter notLoggedOut
  match auth_tokens.getLast? with
  | none => none
  | some last_token =>
    match last_token.end_session_endpoint with
    | none =>
      some { local_session_terminated := true,
             marked_logged_out := none,
             redirect := logout_redirect_url }
    | some url =>
      some { local_session_terminated := true,
             marked_logged_out := some (last_token.id_token, now),
             redirect := url ++ "?id_token_hint=" ++ last_token.id_token }

/-! ## Byte-level `unpad_jwt_head` (jwtse.py lines 34-38)

`unpad_jwt_head` is three lines of Python:

    b = jwt.split(".")[0]
    padded = f"(b)('=' * divmod(len(b),4)[1])"
    jwe_header = json.loads(base64.b64decode(padded))

It is embedded at byte level, together with models of its two standard
library collaborators: `base64.b64decode` (which, crucially, uses the
*standard* base64 alphabet and, in its default lax mode, silently skips
characters outside that alphabet, e.g. the URL-safe alphabet's `-` and
`_`), and `json.loads` restricted to flat string-valued JSON objects —
the shape of every JOSE header. -/

/-- The standard base64 alphabet (RFC 4648 §4), as used by
`base64.b64encode` / `b64decode`. -/
def b64charsStd : List Char :=
  ['A','B','C','D','E','F','G','H','I','J','K','L','M',
   'N','O','P','Q','R','S','T','U','V','W','X','Y','Z',
   'a','b','c','d','e','f','g','h','i','j','k','l','m',
   'n','o','p','q','r','s','t','u','v','w','x','y','z',
   '0','1','2','3','4','5','6','7','8','9','+','/']

/-- The URL-safe base64 alphabet (RFC 4648 §5), as used by
`base64.urlsafe_b64encode` — the alphabet JWS compact segments use. -/
def b64charsUrl : List Char :=
  ['A','B','C','D','E','F','G','H','I','J','K','L','M',
   'N','O','P','Q','R','S','T','U','V','W','X','Y','Z',
   'a','b','c','d','e','f','g','h','i','j','k','l','m',
   'n','o','p','q','r','s','t','u','v','w','x','y','z',
   '0','1','2','3','4','5','6','7','8','9','-','_']

/-- Character of a 6-bit value in the given alphabet. -/
def b64char (tbl : List Char) (v : Nat) : Char :=
  match tbl, v with
  | [], _ => 'A'
  | c :: _, 0 => c
  | _ :: t, v + 1 => b64char t v

/-- Unpadded base64 encoding of a byte list over the given alphabet
(the compact-JWS segment encoding when the alphabet is URL-safe). -/
def b64encodeWith (tbl : List Char) : List Nat → List Char
  | [] => []
  | [b1] =>
    [b64char tbl (b1 / 4), b64char tbl (b1 % 4 * 16)]
  | [b1, b2] =>
    [b64char tbl (b1 / 4), b64char tbl (b1 % 4 * 16 + b2 / 16),
     b64char tbl (b2 % 16 * 4)]
  | b1 :: b2 :: b3 :: bs =>
    b64char tbl (b1 / 4) :: b64char tbl (b1 % 4 * 16 + b2 / 16) ::
    b64char tbl (b2 % 16 * 4 + b3 / 64) :: b64char tbl (b3 % 64) ::
    b64encodeWith tbl bs

/-- `base64.urlsafe_b64encode` without the `=` padding: the encoding
JWS compact serialization applies to header and payload segments. -/
def urlsafe_b64encode_nopad (bs : List Nat) : List Char :=
  b64encodeWith b64charsUrl bs

/-- `base64.b64encode` without the `=` padding (standard alphabet). -/
def std_b64encode_nopad (bs : List Nat) : List Char :=
  b64encodeWith b64charsStd bs

/-- Value of a character in the *standard* base64 alphabet, `none` for
every other character (which `binascii.a2b_base64` in lax mode skips). -/
def b64valAux (c : Char) : List Char → Nat → Option Nat
  | [], _ => none
  | x :: xs, i => if x = c then some i else b64valAux c xs (i + 1)

/-- Standard-alphabet character value. -/
def b64val (c : Char) : Option Nat := b64valAux c b64charsStd 0

/-- The two bytes encoded by the first three characters of a quad. -/
def quadBytes3 (a b c : Nat) : List Nat :=
  [a * 4 + b / 16, b % 16 * 16 + c / 4]

/-- The byte encoded by the first two characters of a quad. -/
def quadBytes2 (a b : Nat) : List Nat :=
  [a * 4 + b / 16]

/-- The three bytes encoded by a full quad. -/
def quadBytes4 (a b c d : Nat) : List Nat :=
  [a * 4 + b / 16, b % 16 * 16 + c / 4, c % 4 * 64 + d]

/-- `binascii.a2b_base64` in its default lax mode (what
`base64.b64decode(s)` calls): characters outside the standard alphabet
are skipped; a `=` seen with at least two data characters in the
current quad counts as padding, and once the quad length plus the pad
run reaches four, decoding stops successfully with the partial quad;
leftover data characters at the end of input (quad of length 1, 2 or 3
without sufficient padding) raise `binascii.Error` (`none` here).
`quad` accumulates the 6-bit values of the current quad, `pads` the
current run of padding characters. -/
def a2b_base64_lax : List Char → List Nat → Nat → Option (List Nat)
  | [], quad, _ => if quad = [] then some [] else none
  | c :: cs, quad, pads =>
    if c = '=' then
      if 2 ≤ quad.length then
        if 4 ≤ quad.length + pads + 1 then
          match quad with
          | [a, b] => some (quadBytes2 a b)
          | [a, b, c3] => some (quadBytes3 a b c3)
          | _ => none
        else
          a2b_base64_lax cs quad (pads + 1)
      else
        a2b_base64_lax cs quad pads
    else
      match b64val c with
      | none => a2b_base64_lax cs quad pads
      | some v =>
        match quad with
        | [a, b, c3] =>
          (a2b_base64_lax cs [] 0).map (fun r => quadBytes4 a b c3 v ++ r)
        | _ => a2b_base64_lax cs (quad ++ [v]) 0

/-- `base64.b64decode` (default arguments: standard alphabet, lax). -/
def b64decode_std (cs : List Char) : Option (List Nat) :=
  a2b_base64_lax cs [] 0

/-- UTF-8 decoding of a byte list, as performed by `json.loads` when
given `bytes` input; malformed sequences (continuation-byte errors,
overlong forms, surrogates, out-of-range) raise (`none`). -/
def utf8Decode : List Nat → Option (List Char)
  | [] => some []
  | b :: bs =>
    if b < 128 then
      (utf8Decode bs).map (fun r => Char.ofNat b :: r)
    else if 194 ≤ b ∧ b ≤ 223 then
      match bs with
      | b2 :: bs2 =>
        if 128 ≤ b2 ∧ b2 ≤ 191 then
          (utf8Decode bs2).map (fun r =>
            Char.ofNat ((b - 192) * 64 + (b2 - 128)) :: r)
        else none
      | [] => none
    else if 224 ≤ b ∧ b ≤ 239 then
      match bs with
      | b2 :: b3 :: bs3 =>
        if (if b = 224 then 160 else 128) ≤ b2 ∧
            b2 ≤ (if b = 237 then 159 else 191) ∧
            128 ≤ b3 ∧ b3 ≤ 191 then
          (utf8Decode bs3).map (fun r =>
            Char.ofNat ((b - 224) * 4096 + (b2 - 128) * 64 + (b3 - 128)) :: r)
        else none
      | _ => none
    else if 240 ≤ b ∧ b ≤ 244 then
      match bs with
      | b2 :: b3 :: b4 :: bs4 =>
        if (if b = 240 then 144 else 128) ≤ b2 ∧
            b2 ≤ (if b = 244 then 143 else 191) ∧
            128 ≤ b3 ∧ b3 ≤ 191 ∧ 128 ≤ b4 ∧ b4 ≤ 191 then
          (utf8Decode bs4).map (fun r =>
            Char.ofNat ((b - 240) * 262144 + (b2 - 128) * 4096 +
              (b3 - 128) * 64 + (b4 - 128)) :: r)
        else none
      | _ => none
    else none

/-- JSON insignificant whitespace (RFC 8259 §2). -/
def jsonWs (c : Char) : Bool :=
  c = ' ' ∨ c = Char.ofNat 9 ∨ c = Char.ofNat 10 ∨ c = Char.ofNat 13

/-- Skip JSON whitespace. -/
def skipWs (cs : List Char) : List Char := cs.dropWhile jsonWs

/-- Body of a JSON string after the opening quote: returns the parsed
string and the input following the closing quote.  Escapes `\"`, `\\`,
`\/`, `\b`, `\f`, `\n`, `\r`, `\t` are handled; `\uXXXX` and any other
escape make the restricted parser give up; unescaped control characters
are a JSON error. -/
def parseJsonStringAux : List Char → List Char → Option (String × List Char)
  | [], _ => none
  | c :: cs, acc =>
    if c = Char.ofNat 34 then
      some (String.mk acc.reverse, cs)
    else if c = Char.ofNat 92 then
      match cs with
      | [] => none
      | e :: cs2 =>
        if e = Char.ofNat 34 then parseJsonStringAux cs2 (Char.ofNat 34 :: acc)
        else if e = Char.ofNat 92 then parseJsonStringAux cs2 (Char.ofNat 92 :: acc)
        else if e = '/' then parseJsonStringAux cs2 ('/' :: acc)
        else if e = 'b' then parseJsonStringAux cs2 (Char.ofNat 8 :: acc)
        else if e = 'f' then parseJsonStringAux cs2 (Char.ofNat 12 :: acc)
        else if e = 'n' then parseJsonStringAux cs2 (Char.ofNat 10 :: acc)
        else if e = 'r' then parseJsonStringAux cs2 (Char.ofNat 13 :: acc)
        else if e = 't' then parseJsonStringAux cs2 (Char.ofNat 9 :: acc)
        else none
    else if c.toNat < 32 then none
    else parseJsonStringAux cs (c :: acc)

/-- A JSON string literal, including its opening quote. -/
def parseJsonString (cs : List Char) : Option (String × List Char) :=
  match cs with
  | c :: rest => if c = Char.ofNat 34 then parseJsonStringAux rest [] else none
  | [] => none

/-- Members of a JSON object after the opening brace, accumulating into
a Python-dict-semantics map (`hset`: duplicate keys keep the first
position, last value wins).  `fuel` bounds recursion by input length. -/
def parseMembers : Nat → List Char → HeaderMap →
    Option (HeaderMap × List Char)
  | 0, _, _ => none
  | fuel + 1, cs, acc =>
    match parseJsonString (skipWs cs) with
    | none => none
    | some (key, cs1) =>
      match skipWs cs1 with
      | ':' :: cs2 =>
        match parseJsonString (skipWs cs2) with
        | none => none
        | some (val, cs3) =>
          match skipWs cs3 with
          | ',' :: cs4 => parseMembers fuel cs4 (hset key val acc)
          | c :: cs4 =>
            if c = Char.ofNat 125 then some (hset key val acc, cs4) else none
          | [] => none
      | _ => none

/-- `json.loads` on a byte string, restricted to a flat JSON object with
string values (the shape of every JOSE header): UTF-8 decode, then parse
one object with nothing but whitespace around it. -/
def json_loads_object (bytes : List Nat) : Option HeaderMap :=
  match utf8Decode bytes with
  | none => none
  | some cs =>
    match skipWs cs with
    | c :: cs1 =>
      if c = Char.ofNat 123 then
        match skipWs cs1 with
        | c2 :: cs2 =>
          if c2 = Char.ofNat 125 then
            if skipWs cs2 = [] then some [] else none
          else
            match parseMembers (cs1.length + 1) cs1 [] with
            | some (obj, rest) => if skipWs rest = [] then some obj else none
            | none => none
        | [] => none
      else none
    | [] => none

/-- `jwt.split(".")[0]`: the characters before the first dot. -/
def splitFirstSegment (jwt : List Char) : List Char :=
  jwt.takeWhile (fun c => c ≠ '.')

/-- `unpad_jwt_head` (jwtse.py lines 34-38): first dot-separated
segment, `len(b) % 4` padding characters appended
(`'=' * divmod(len(b),4)[1]`), standard-alphabet lax base64 decode,
JSON parse.  A decode or parse failure raises (`none`). -/
def unpad_jwt_head (jwt : List Char) : Option HeaderMap :=
  let b := splitFirstSegment jwt
  let padded := b ++ List.replicate (b.length % 4) '='
  match b64decode_std padded with
  | none => none
  | some bytes => json_loads_object bytes

/-! ## Claims -/

instance {ε α : Type} [DecidableEq ε] [DecidableEq α] :
    DecidableEq (Except ε α) := fun x y =>
  match x, y with
  | Except.ok a, Except.ok b =>
    if h : a = b then isTrue (by rw [h])
    else isFalse (by intro hh; cases hh; exact h rfl)
  | Except.error a, Except.error b =>
    if h : a = b then isTrue (by rw [h])
    else isFalse (by intro hh; cases hh; exact h rfl)
  | Except.ok _, Except.error _ => isFalse (by intro hh; cases hh)
  | Except.error _, Except.ok _ => isFalse (by intro hh; cases hh)

/-- Claim C1.  The claim states that after a successful token exchange
the ID token signature is verified against the provider key matching its
header kid, a failure being fatal.  In the source (views.py line 372)
the second verification call is `verify_jws(access_token, op_id_jwk)`:
it re-verifies the *access token* against the key selected by the ID
token's kid, and the ID token's own signature is never checked.  At the
failing input below — a validly signed access token and an ID token with
the same kid but a forged signature — the callback proceeds to establish
the session, although `verify_jws` applied to the ID token itself (as
the claim requires) fails with a signature error. -/
theorem claim1_id_token_signature_never_verified :
    tokens_verified_step [] [⟨"op-kid-1", 7⟩]
      (RpToken.jws (create_jws [("iss", "op")] ⟨"op-kid-1", 7⟩ "RS256" []).1)
      (RpToken.jws ⟨[("alg", "RS256"), ("kid", "op-kid-1")], [("sub", "x")],
        Sig.forged 0⟩)
      = CallbackOutcome.proceed
  ∧ verify_jws []
      ⟨[("alg", "RS256"), ("kid", "op-kid-1")], [("sub", "x")], Sig.forged 0⟩
      ⟨"op-kid-1", 7⟩
      = Except.error JwtError.badSignature := by
  decide

/-- Claim C2, counterexample.  The claim states the TOKENS_VERIFIED keys
come from the JWKS snapshot persisted in the pending-authentication row,
making the outcome independent of provider state changed after the
authorization request.  Below, the same persisted row (snapshot key kid
`old-kid`) is processed against two different
`FederationEntityConfiguration` tables: with the post-authorization
table holding `new-kid` the tokens (signed by `new-kid`) are accepted,
with a table equal to the snapshot they are rejected — the outcome
depends on state read at callback time, not on the snapshot. -/
theorem claim2_counterexample :
    callback_tokens_verified []
      (begin_authz_entry "cid" "st" "https://op/az" "https://op" "d"
        [⟨"old-kid", 11⟩] "meta")
      [⟨"openid_provider", [⟨"new-kid", 22⟩]⟩]
      (RpToken.jws (create_jws [("x", "y")] ⟨"new-kid", 22⟩ "RS256" []).1)
      (RpToken.jws (create_jws [("sub", "s")] ⟨"new-kid", 22⟩ "RS256" []).1)
      = CallbackOutcome.proceed
  ∧ callback_tokens_verified []
      (begin_authz_entry "cid" "st" "https://op/az" "https://op" "d"
        [⟨"old-kid", 11⟩] "meta")
      [⟨"openid_provider", [⟨"old-kid", 11⟩]⟩]
      (RpToken.jws (create_jws [("x", "y")] ⟨"new-kid", 22⟩ "RS256" []).1)
      (RpToken.jws (create_jws [("sub", "s")] ⟨"new-kid", 22⟩ "RS256" []).1)
      = CallbackOutcome.rejected "Not valid authentication token"
          "Authentication token seems not to be valid." 403
  ∧ (begin_authz_entry "cid" "st" "https://op/az" "https://op" "d"
        [⟨"old-kid", 11⟩] "meta").provider_jwks = [⟨"old-kid", 11⟩] := by
  decide

/-- Claim C2, amended.  The keys used by the TOKENS_VERIFIED step are
read from the first stored `FederationEntityConfiguration` with entity
type `openid_provider` at callback time; the persisted
pending-authentication row (including its `provider_jwks` snapshot) is
never consulted by the verification step, whose outcome is therefore
independent of that row. -/
theorem claim2_amended_snapshot_never_consulted (disabled : List String)
    (authz authz2 : OidcAuthentication)
    (confs : List FederationEntityConfiguration)
    (access_token id_token : RpToken) :
    callback_tokens_verified disabled authz confs access_token id_token
      = callback_tokens_verified disabled authz2 confs access_token id_token :=
  rfl

/-- Claim C3.  The claim states access-token verification failure is
non-fatal (the flow continues to userinfo), an opaque non-JWT access
token being tolerated.  In the source, a failing `verify_jws` *raises*
(it never returns a falsy value), and nothing in the callback catches
it, so `if not verify_jws(access_token, op_ac_jwk): pass` only tolerates
falsy returns that cannot occur; an opaque access token already makes
`get_jwk_from_jwt` raise while decoding its header (line 357).  Both
failing inputs below abort the flow with an uncaught exception instead
of continuing. -/
theorem claim3_access_token_failure_is_fatal :
    tokens_verified_step [] [⟨"op-kid-1", 7⟩]
      (RpToken.nonJwt "2YotnFZFEjr1zCsicMWpAA")
      (RpToken.jws (create_jws [("sub", "x")] ⟨"op-kid-1", 7⟩ "RS256" []).1)
      = CallbackOutcome.exception JwtError.malformed
  ∧ tokens_verified_step [] [⟨"op-kid-1", 7⟩]
      (RpToken.jws ⟨[("alg", "RS256"), ("kid", "op-kid-1")], [("p", "q")],
        Sig.forged 3⟩)
      (RpToken.jws (create_jws [("sub", "x")] ⟨"op-kid-1", 7⟩ "RS256" []).1)
      = CallbackOutcome.exception JwtError.badSignature := by
  decide

/-- Claim C4, counterexample.  The claim states `verify` fails with
`UnsupportedAlgorithm` for every token whose header alg is disabled,
regardless of the rest.  In the source the kid comparison (line 133)
runs *before* the disabled-algorithm check (line 137): a token with
disabled alg `HS256` and kid `a`, verified against a key with kid `b`,
fails with the kid-mismatch `Exception`, not `UnsupportedAlgorithm`. -/
theorem claim4_counterexample :
    verify_jws ["HS256"]
      ⟨[("alg", "HS256"), ("kid", "a")], [("m", "1")],
        Sig.made 5 [("alg", "HS256"), ("kid", "a")] [("m", "1")]⟩
      ⟨"b", 5⟩
      = Except.error JwtError.keyMismatch
  ∧ (Except.error JwtError.keyMismatch : Except JwtError Payload)
      ≠ Except.error JwtError.unsupportedAlg := by
  decide

/-- Claim C4, amended.  `decrypt` fails with `UnsupportedAlgorithm`
whenever the header alg is disabled, before any decryption and
regardless of ciphertext or key (first conjunct quantifies over both);
`verify` does the same — including for the empty header alg — *provided
the header kid matches the supplied key's kid*, the kid comparison
being the one check that precedes the disabled-set check. -/
theorem claim4_amended_disabled_alg_rejected_early (disabled : List String)
    (defaultAlg defaultEnc : String) (t : CompactJws) (jwe : CompactJwe)
    (pub k : Jwk) :
    (∀ a, hget "alg" t.head = some a → a ∈ disabled →
      hget "kid" t.head = some pub.kid →
      verify_jws disabled t pub = Except.error JwtError.unsupportedAlg)
  ∧ (hget "alg" t.head = some "" → hget "kid" t.head = some pub.kid →
      verify_jws disabled t pub = Except.error JwtError.unsupportedAlg)
  ∧ (∀ a, hget "alg" jwe.head = some a → a ∈ disabled →
      decrypt_jwe disabled defaultAlg defaultEnc jwe k
        = Except.error JwtError.unsupportedAlg) := by
  refine ⟨?_, ?_, ?_⟩
  · intro a ha hd hk
    unfold verify_jws
    rw [hk, ha]
    simp [hd]
  · intro ha hk
    unfold verify_jws
    rw [hk, ha]
    simp
  · intro a ha hd
    unfold decrypt_jwe
    rw [ha]
    simp [hd]

/-- Witness for the amended claim C4, at concrete inputs: a forged
`HS256` token with matching kid, an empty-alg token with matching kid,
and a `RSA1_5` JWE with well-formed ciphertext. -/
theorem claim4_amended_witness :
    verify_jws ["HS256"]
      ⟨[("alg", "HS256"), ("kid", "a")], [("m", "1")], Sig.forged 0⟩ ⟨"a", 5⟩
      = Except.error JwtError.unsupportedAlg
  ∧ verify_jws ["HS256"]
      ⟨[("alg", ""), ("kid", "a")], [("m", "1")], Sig.forged 0⟩ ⟨"a", 5⟩
      = Except.error JwtError.unsupportedAlg
  ∧ decrypt_jwe ["RSA1_5"] "RSA-OAEP" "A256CBC-HS512"
      ⟨[("alg", "RSA1_5")], some (5, [("p", "q")])⟩ ⟨"a", 5⟩
      = Except.error JwtError.unsupportedAlg :=
  ⟨(claim4_amended_disabled_alg_rejected_early ["HS256"] "RSA-OAEP"
      "A256CBC-HS512"
      ⟨[("alg", "HS256"), ("kid", "a")], [("m", "1")], Sig.forged 0⟩
      ⟨[("alg", "RSA1_5")], some (5, [("p", "q")])⟩ ⟨"a", 5⟩ ⟨"a", 5⟩).1
      "HS256" (by decide) (by decide) (by decide),
   (claim4_amended_disabled_alg_rejected_early ["HS256"] "RSA-OAEP"
      "A256CBC-HS512"
      ⟨[("alg", ""), ("kid", "a")], [("m", "1")], Sig.forged 0⟩
      ⟨[("alg", "RSA1_5")], some (5, [("p", "q")])⟩ ⟨"a", 5⟩ ⟨"a", 5⟩).2.1
      (by decide) (by decide),
   (claim4_amended_disabled_alg_rejected_early ["RSA1_5"] "RSA-OAEP"
      "A256CBC-HS512"
      ⟨[("alg", "HS256"), ("kid", "a")], [("m", "1")], Sig.forged 0⟩
      ⟨[("alg", "RSA1_5")], some (5, [("p", "q")])⟩ ⟨"a", 5⟩ ⟨"a", 5⟩).2.2
      "RSA1_5" (by decide) (by decide)⟩

/-- Claim C5.  Signing followed by verification with the same key's
public part returns the original payload (for any enabled, non-empty
algorithm, any payload, any extra headers); and verifying a token
produced by `create_jws` with any key whose kid differs from the
token's header kid (which `create_jws` sets to the signing key's kid)
fails with the key-mismatch error. -/
theorem claim5_sign_verify_roundtrip (disabled : List String)
    (payload : Payload) (k : Jwk) (alg : String) (headers : HeaderMap)
    (henabled : alg ∉ disabled) (hne : alg ≠ "") :
    verify_jws disabled (create_jws payload k alg headers).1 (publicPart k)
      = Except.ok payload
  ∧ ∀ pub : Jwk, pub.kid ≠ k.kid →
      verify_jws disabled (create_jws payload k alg headers).1 pub
        = Except.error JwtError.keyMismatch := by
  have hkid : hget "kid" ((create_jws payload k alg headers).1).head
      = some k.kid := by
    simp [create_jws, hget]
  have halg : hget "alg" ((create_jws payload k alg headers).1).head
      = some alg := by
    simp [create_jws, hget]
  constructor
  · unfold verify_jws
    rw [hkid, halg]
    simp [publicPart, henabled, hne, create_jws]
  · intro pub hpub
    unfold verify_jws
    rw [hkid]
    simp [Ne.symm hpub]

/-- Witness for claim C5 at a concrete payload, key, algorithm and
mismatched verification key. -/
theorem claim5_witness :
    verify_jws [] (create_jws [("a", "b")] ⟨"kidZ", 3⟩ "RS256" []).1
      (publicPart ⟨"kidZ", 3⟩) = Except.ok [("a", "b")]
  ∧ verify_jws [] (create_jws [("a", "b")] ⟨"kidZ", 3⟩ "RS256" []).1
      ⟨"kidY", 3⟩ = Except.error JwtError.keyMismatch :=
  ⟨(claim5_sign_verify_roundtrip [] [("a", "b")] ⟨"kidZ", 3⟩ "RS256" []
      (by decide) (by decide)).1,
   (claim5_sign_verify_roundtrip [] [("a", "b")] ⟨"kidZ", 3⟩ "RS256" []
      (by decide) (by decide)).2 ⟨"kidY", 3⟩ (by decide)⟩

/-- Claim C7.  Whenever the provider parameter is present, the trust
anchor (explicit or defaulted) is allowed, and the stored lookup finds a
trust chain with `is_active = false`, `get_oidc_op` raises
`InvalidTrustchain` — for *every* refresh collaborator, so no refresh of
the disabled chain is attempted and the chain is never returned. -/
theorem claim7_inactive_chain_always_rejected (allowedAnchors : List String)
    (defaultAnchor prov : String) (anchorParam : Option String)
    (store : List TrustChainRec)
    (refresh : String → String → Option TrustChainRec) (tc : TrustChainRec)
    (hp : prov ≠ "")
    (ha : anchorParam.getD defaultAnchor ∈ allowedAnchors)
    (hf : store.find? (fun c => c.sub == prov &&
        c.trust_anchor_sub == anchorParam.getD defaultAnchor) = some tc)
    (hi : tc.is_active = false) :
    get_oidc_op allowedAnchors defaultAnchor (some prov) anchorParam store
      refresh = Except.error "found but DISABLED" := by
  simp [get_oidc_op, hp, ha, hf, hi]

/-- Witness for claim C7: a store holding one disabled, unexpired chain
for an allowed anchor. -/
theorem claim7_witness :
    get_oidc_op ["https://ta.example"] "https://ta.example"
      (some "https://op.example") none
      [⟨"https://op.example", "https://ta.example", false, false⟩]
      (fun _ _ => none)
      = Except.error "found but DISABLED" :=
  claim7_inactive_chain_always_rejected ["https://ta.example"]
    "https://ta.example" "https://op.example" none
    [⟨"https://op.example", "https://ta.example", false, false⟩]
    (fun _ _ => none)
    ⟨"https://op.example", "https://ta.example", false, false⟩
    (by decide) (by decide) (by decide) (by decide)

/-- Claim C8.  The claim states the authorization request's scope equals
the requested scopes joined by single spaces, and `openid` when absent.
The source joins the *characters* of the scope query string
(`" ".join` iterates over the `str` returned by `QueryDict.get`), so a
begin request with `?scope=openid` produces `o p e n i d`; only the
absent-parameter default produces `openid`. -/
theorem claim8_scope_joins_characters :
    beginScope (some "openid") = "o p e n i d"
  ∧ beginScope none = "openid" := by
  decide

/-- Claim C9.  For a user holding at least one not-logged-out
authentication token: the local session is terminated in both branches;
with an `end_session_endpoint` in the provider configuration the most
recent such token is marked with the current time and the response
redirects to the endpoint with the id token as `id_token_hint`; without
one, no token is marked and the response redirects to the configured
default post-logout location. -/
theorem claim9_logout_behaviour (user_tokens : List OidcAuthenticationToken)
    (logout_redirect_url now : String) (tok : OidcAuthenticationToken)
    (h : (user_tokens.filter notLoggedOut).getLast? = some tok) :
    (tok.end_session_endpoint = none →
      oidc_rpinitiated_logout user_tokens logout_redirect_url now
        = some ⟨true, none, logout_redirect_url⟩)
  ∧ (∀ url, tok.end_session_endpoint = some url →
      oidc_rpinitiated_logout user_tokens logout_redirect_url now
        = some ⟨true, some (tok.id_token, now),
            url ++ "?id_token_hint=" ++ tok.id_token⟩) := by
  constructor
  · intro he
    simp [oidc_rpinitiated_logout, h, he]
  · intro url he
    simp [oidc_rpinitiated_logout, h, he]

/-- Witness for claim C9: one user with a provider exposing no
end-session endpoint, one with a provider exposing one (and an older,
already-logged-out token that must not be selected). -/
theorem claim9_witness :
    oidc_rpinitiated_logout [⟨"idtok1", none, none⟩] "https://rp/out"
      "2024-01-01" = some ⟨true, none, "https://rp/out"⟩
  ∧ oidc_rpinitiated_logout
      [⟨"idtok0", some "2023-05-05", some "https://op/end"⟩,
       ⟨"idtok1", none, some "https://op/end"⟩]
      "https://rp/out" "2024-01-01"
      = some ⟨true, some ("idtok1", "2024-01-01"),
          "https://op/end" ++ "?id_token_hint=" ++ "idtok1"⟩ :=
  ⟨(claim9_logout_behaviour [⟨"idtok1", none, none⟩] "https://rp/out"
      "2024-01-01" ⟨"idtok1", none, none⟩ (by decide)).1 rfl,
   (claim9_logout_behaviour
      [⟨"idtok0", some "2023-05-05", some "https://op/end"⟩,
       ⟨"idtok1", none, some "https://op/end"⟩]
      "https://rp/out" "2024-01-01"
      ⟨"idtok1", none, some "https://op/end"⟩ (by decide)).2
      "https://op/end" rfl⟩

/-- Claim C10.  The compact token returned by `create_jws` depends only
on payload, signing key and algorithm: two calls differing only in the
`headers` argument return the same token; no entry of the extra headers
(other than the `kid`/`alg` keys the function itself owns) occurs in the
returned token's header; and the caller-supplied headers dict is mutated
by setting its `kid` and `alg` entries. -/
theorem claim10_token_ignores_extra_headers (payload : Payload) (k : Jwk)
    (alg : String) (headers1 headers2 : HeaderMap) :
    (create_jws payload k alg headers1).1 = (create_jws payload k alg headers2).1
  ∧ (∀ key val, (key, val) ∈ headers1 → key ≠ "kid" → key ≠ "alg" →
      hget key ((create_jws payload k alg headers1).1).head = none)
  ∧ (create_jws payload k alg headers1).2
      = hset "alg" alg (hset "kid" k.kid headers1) := by
  refine ⟨rfl, ?_, rfl⟩
  intro key val _ hk ha
  simp [create_jws, hget, Ne.symm hk, Ne.symm ha]

/-- Witness for claim C10: a `typ` extra header neither changes the
returned token nor appears in its header, while the caller's dict is
updated in place. -/
theorem claim10_witness :
    (create_jws [("a", "1")] ⟨"kk", 9⟩ "RS256" [("typ", "JWT")]).1
      = (create_jws [("a", "1")] ⟨"kk", 9⟩ "RS256" []).1
  ∧ hget "typ" ((create_jws [("a", "1")] ⟨"kk", 9⟩ "RS256"
      [("typ", "JWT")]).1).head = none
  ∧ (create_jws [("a", "1")] ⟨"kk", 9⟩ "RS256" [("typ", "JWT")]).2
      = hset "alg" "RS256" (hset "kid" "kk" [("typ", "JWT")]) :=
  ⟨(claim10_token_ignores_extra_headers [("a", "1")] ⟨"kk", 9⟩ "RS256"
      [("typ", "JWT")] []).1,
   (claim10_token_ignores_extra_headers [("a", "1")] ⟨"kk", 9⟩ "RS256"
      [("typ", "JWT")] []).2.1 "typ" "JWT" (by simp) (by decide) (by decide),
   (claim10_token_ignores_extra_headers [("a", "1")] ⟨"kk", 9⟩ "RS256"
      [("typ", "JWT")] []).2.2⟩

theorem b64char_mem_or_default (tbl : List Char) :
    ∀ v : Nat, b64char tbl v ∈ tbl ∨ b64char tbl v = 'A' := by
  induction tbl with
  | nil => intro v; right; cases v <;> rfl
  | cons c t ih =>
    intro v
    cases v with
    | zero => left; exact List.mem_cons_self _ _
    | succ v =>
      rcases ih v with h | h
      · left; exact List.mem_cons_of_mem _ h
      · right; exact h

theorem b64char_std_ne_special (v : Nat) :
    b64char b64charsStd v ≠ '.' ∧ b64char b64charsStd v ≠ '=' := by
  rcases b64char_mem_or_default b64charsStd v with h | h
  · constructor <;> intro hEq <;> rw [hEq] at h <;> revert h <;> decide
  · rw [h]; constructor <;> decide

theorem b64val_b64char_std (v : Nat) (h : v < 64) :
    b64val (b64char b64charsStd v) = some v := by
  have hall : ∀ w : Fin 64, b64val (b64char b64charsStd w.val) = some w.val := by
    decide
  exact hall ⟨v, h⟩

theorem mem_std_encode_exists (bs : List Nat) :
    ∀ c ∈ b64encodeWith b64charsStd bs, ∃ v, c = b64char b64charsStd v := by
  induction bs using b64encodeWith.induct b64charsStd with
  | case1 => simp [b64encodeWith]
  | case2 b1 =>
    intro c hc
    simp [b64encodeWith] at hc
    rcases hc with h | h <;> exact ⟨_, h⟩
  | case3 b1 b2 =>
    intro c hc
    simp [b64encodeWith] at hc
    rcases hc with h | h | h <;> exact ⟨_, h⟩
  | case4 b1 b2 b3 tl ih =>
    intro c hc
    simp [b64encodeWith] at hc
    rcases hc with h | h | h | h | h
    · exact ⟨_, h⟩
    · exact ⟨_, h⟩
    · exact ⟨_, h⟩
    · exact ⟨_, h⟩
    · exact ih c h

theorem takeWhile_all_append (p : Char → Bool) (l1 : List Char) (x : Char)
    (l2 : List Char) (h : ∀ c ∈ l1, p c = true) (hx : p x = false) :
    (l1 ++ x :: l2).takeWhile p = l1 := by
  induction l1 with
  | nil => simp [List.takeWhile_cons, hx]
  | cons a t ih =>
    have ha : p a = true := h a (List.mem_cons_self _ _)
    simp only [List.cons_append, List.takeWhile_cons, ha, if_true]
    rw [ih (fun c hc => h c (List.mem_cons_of_mem _ hc))]

theorem a2b_data0 (c : Char) (v : Nat) (hv : b64val c = some v) (hne : c ≠ '=')
    (cs : List Char) (pads : Nat) :
    a2b_base64_lax (c :: cs) [] pads = a2b_base64_lax cs [v] 0 := by
  simp [a2b_base64_lax, hne, hv]

theorem a2b_data1 (c : Char) (v : Nat) (hv : b64val c = some v) (hne : c ≠ '=')
    (cs : List Char) (a : Nat) (pads : Nat) :
    a2b_base64_lax (c :: cs) [a] pads = a2b_base64_lax cs [a, v] 0 := by
  simp [a2b_base64_lax, hne, hv]

theorem a2b_data2 (c : Char) (v : Nat) (hv : b64val c = some v) (hne : c ≠ '=')
    (cs : List Char) (a b : Nat) (pads : Nat) :
    a2b_base64_lax (c :: cs) [a, b] pads = a2b_base64_lax cs [a, b, v] 0 := by
  simp [a2b_base64_lax, hne, hv]

theorem a2b_data3 (c : Char) (v : Nat) (hv : b64val c = some v) (hne : c ≠ '=')
    (cs : List Char) (a b c3 : Nat) (pads : Nat) :
    a2b_base64_lax (c :: cs) [a, b, c3] pads
      = (a2b_base64_lax cs [] 0).map (fun r => quadBytes4 a b c3 v ++ r) := by
  simp [a2b_base64_lax, hne, hv]

theorem a2b_pad2_first (cs : List Char) (a b : Nat) :
    a2b_base64_lax ('=' :: cs) [a, b] 0 = a2b_base64_lax cs [a, b] 1 := by
  simp [a2b_base64_lax]

theorem a2b_pad2_second (cs : List Char) (a b : Nat) :
    a2b_base64_lax ('=' :: cs) [a, b] 1 = some (quadBytes2 a b) := by
  simp [a2b_base64_lax]

theorem a2b_pad3 (cs : List Char) (a b c3 : Nat) :
    a2b_base64_lax ('=' :: cs) [a, b, c3] 0 = some (quadBytes3 a b c3) := by
  simp [a2b_base64_lax]

theorem a2b_std_roundtrip (n : Nat) : ∀ bs : List Nat, bs.length ≤ n →
    (∀ b ∈ bs, b < 256) →
    a2b_base64_lax (b64encodeWith b64charsStd bs ++
      List.replicate ((b64encodeWith b64charsStd bs).length % 4) '=') [] 0
      = some bs := by
  induction n with
  | zero =>
    intro bs hlen _
    have hz : bs = [] := List.length_eq_zero.mp (Nat.le_zero.mp hlen)
    subst hz
    rfl
  | succ n ih =>
    intro bs hlen hlt
    rcases bs with _ | ⟨b1, _ | ⟨b2, _ | ⟨b3, tl⟩⟩⟩
    · rfl
    · have h1 : b1 < 256 := hlt b1 (by simp)
      have hv1 : b1 / 4 < 64 := by omega
      have hv2 : b1 % 4 * 16 < 64 := by omega
      show a2b_base64_lax (b64char b64charsStd (b1 / 4) ::
        b64char b64charsStd (b1 % 4 * 16) :: '=' :: '=' :: []) [] 0 = some [b1]
      rw [a2b_data0 _ _ (b64val_b64char_std _ hv1) (b64char_std_ne_special _).2,
        a2b_data1 _ _ (b64val_b64char_std _ hv2) (b64char_std_ne_special _).2,
        a2b_pad2_first, a2b_pad2_second]
      simp [quadBytes2]
      omega
    · have h1 : b1 < 256 := hlt b1 (by simp)
      have h2 : b2 < 256 := hlt b2 (by simp)
      have hv1 : b1 / 4 < 64 := by omega
      have hv2 : b1 % 4 * 16 + b2 / 16 < 64 := by omega
      have hv3 : b2 % 16 * 4 < 64 := by omega
      show a2b_base64_lax (b64char b64charsStd (b1 / 4) ::
        b64char b64charsStd (b1 % 4 * 16 + b2 / 16) ::
        b64char b64charsStd (b2 % 16 * 4) :: '=' :: '=' :: '=' :: []) [] 0
        = some [b1, b2]
      rw [a2b_data0 _ _ (b64val_b64char_std _ hv1) (b64char_std_ne_special _).2,
        a2b_data1 _ _ (b64val_b64char_std _ hv2) (b64char_std_ne_special _).2,
        a2b_data2 _ _ (b64val_b64char_std _ hv3) (b64char_std_ne_special _).2,
        a2b_pad3]
      simp [quadBytes3]
      constructor <;> omega
    · have h1 : b1 < 256 := hlt b1 (by simp)
      have h2 : b2 < 256 := hlt b2 (by simp)
      have h3 : b3 < 256 := hlt b3 (by simp)
      have hv1 : b1 / 4 < 64 := by omega
      have hv2 : b1 % 4 * 16 + b2 / 16 < 64 := by omega
      have hv3 : b2 % 16 * 4 + b3 / 64 < 64 := by omega
      have hv4 : b3 % 64 < 64 := by omega
      have htl : tl.length ≤ n := by
        simp only [List.length_cons] at hlen
        omega
      have htlb : ∀ b ∈ tl, b < 256 := fun b hb => hlt b (by simp [hb])
      have hmod : (b64encodeWith b64charsStd (b1 :: b2 :: b3 :: tl)).length % 4
          = (b64encodeWith b64charsStd tl).length % 4 := by
        simp [b64encodeWith]
        omega
      rw [show b64encodeWith b64charsStd (b1 :: b2 :: b3 :: tl)
          = b64char b64charsStd (b1 / 4) ::
            b64char b64charsStd (b1 % 4 * 16 + b2 / 16) ::
            b64char b64charsStd (b2 % 16 * 4 + b3 / 64) ::
            b64char b64charsStd (b3 % 64) ::
            b64encodeWith b64charsStd tl from rfl] at hmod ⊢
      rw [hmod]
      simp only [List.cons_append]
      rw [a2b_data0 _ _ (b64val_b64char_std _ hv1) (b64char_std_ne_special _).2,
        a2b_data1 _ _ (b64val_b64char_std _ hv2) (b64char_std_ne_special _).2,
        a2b_data2 _ _ (b64val_b64char_std _ hv3) (b64char_std_ne_special _).2,
        a2b_data3 _ _ (b64val_b64char_std _ hv4) (b64char_std_ne_special _).2,
        ih tl htl htlb]
      simp [quadBytes4]
      refine ⟨by omega, by omega, by omega⟩

/-- Claim C6, amended.  The claim describes `decodeHeader` as
base64url-decoding the first dot-separated segment.  The source calls
`base64.b64decode`, the *standard*-alphabet lax decoder, so the property
holds for segments over the standard alphabet: for every byte string
whose (unpadded) standard base64 encoding forms the first segment and
which parses as a flat JSON object, `unpad_jwt_head` returns that
object — the `len(b) % 4` padding appended by the source (2 characters
for remainder 2, 3 for remainder 3, of which the lax decoder consumes
only what it needs) is accepted for every encoding length. -/
theorem claim6_amended_standard_b64_header (bs : List Nat) (hdr : HeaderMap)
    (rest : List Char) (hb : ∀ b ∈ bs, b < 256)
    (hj : json_loads_object bs = some hdr) :
    unpad_jwt_head (std_b64encode_nopad bs ++ '.' :: rest) = some hdr := by
  have hseg : splitFirstSegment (std_b64encode_nopad bs ++ '.' :: rest)
      = std_b64encode_nopad bs := by
    unfold splitFirstSegment
    apply takeWhile_all_append
    · intro c hc
      rcases mem_std_encode_exists bs c hc with ⟨v, rfl⟩
      simp [(b64char_std_ne_special v).1]
    · simp
  simp only [unpad_jwt_head]
  rw [hseg]
  unfold b64decode_std std_b64encode_nopad
  rw [a2b_std_roundtrip bs.length bs le_rfl hb]
  exact hj

/-- Claim C6, counterexample.  The JSON object with one field `aaa`
holding `~x` has a base64url encoding (`eyJhYWEiOiJ-eCJ9`, 16
characters, remainder 0 mod 4) containing the URL-safe character `-`.
The claim says `decodeHeader` returns the object for every such token;
the source's standard-alphabet lax decoder skips the `-`, leaving 15
data characters, and raises `binascii.Error` on the leftover quad, so
`unpad_jwt_head` fails on this token. -/
theorem claim6_counterexample :
    json_loads_object [123, 34, 97, 97, 97, 34, 58, 34, 126, 120, 34, 125]
      = some [("aaa", "~x")]
  ∧ urlsafe_b64encode_nopad [123, 34, 97, 97, 97, 34, 58, 34, 126, 120, 34, 125]
      = "eyJhYWEiOiJ-eCJ9".data
  ∧ unpad_jwt_head ("eyJhYWEiOiJ-eCJ9.p.s").data = none := by
  decide

/-- Witness for the amended claim C6: the header bytes of
`alg RS256` (a 15-byte JSON object, standard encoding of remainder 3)
decode back to the parsed header through `unpad_jwt_head`. -/
theorem claim6_witness :
    json_loads_object [123, 34, 97, 108, 103, 34, 58, 34, 82, 83, 50, 53, 54, 34, 125]
      = some [("alg", "RS256")]
  ∧ unpad_jwt_head (std_b64encode_nopad
      [123, 34, 97, 108, 103, 34, 58, 34, 82, 83, 50, 53, 54, 34, 125]
      ++ '.' :: "x.y".data)
      = some [("alg", "RS256")] :=
  ⟨by decide,
   claim6_amended_standard_b64_header
     [123, 34, 97, 108, 103, 34, 58, 34, 82, 83, 50, 53, 54, 34, 125]
     [("alg", "RS256")] "x.y".data (by decide) (by decide)⟩

end SpidCie
